import Mathlib

/-!
Shallow embedding of the Morse-code signalling device
(`gpiointerrupt.c`, TI CC3220S LaunchPad GPIO-interrupt example).

The C program keeps four unsigned-short cursor globals
(`message_index`, `character_index`, `symbol_index`, `phase`), a
`message_ended` flag, and a pair of button-managed selection globals
(`next_message_index`, `button_pressed`).  The periodic function
`signal_message` advances the cursor by one phase step and performs at
most one `set_leds` call; the main loop applies a pending message
switch once `message_ended` is set.

States are Lean structures, one field per C global.  Machine integers
are modelled as `Nat` carrying the C value, with an explicit
`% 2 ^ 16` (resp. `% 2 ^ 8`) wherever the C code increments an
`unsigned short` (resp. `unsigned char`); the `short int` parameter of
`signal_dot` is modelled by the wrap-to-signed conversion `toShort`.
`set_leds` takes the bitmask argument of the C call: `0` is both
lights off, `1` is pattern A (light 0 / red), `2` is pattern B
(light 1 / green).  Each step therefore returns `Option Nat`: the
argument of the unique `set_leds` call it performs, if any.
-/

set_option maxRecDepth 40000

/-- The C string terminator `\0`. -/
def NUL : Char := Char.ofNat 0

/-- `charAt l i` models reading index `i` of a NUL-terminated C string
whose characters are `l`: past the end the terminator is read. -/
def charAt (l : List Char) (i : Nat) : Char := l.getD i NUL

/- lengths of Morse code symbols (`const int` globals, lines 67-70) -/

def dot_len : Nat := 2

def dash_len : Nat := 4

def character_pause_len : Nat := 2

def word_pause_len : Nat := 4

/-- `short int num_messages = 3;` (line 64). -/
def num_messages : Nat := 3

/-- `char *messages[] = {"ss", "oo", "sos"};` (line 63), each string as
its character list. -/
def messages : List (List Char) := [['s', 's'], ['o', 'o'], ['s', 'o', 's']]

/-- `get_morse` (lines 415-473): the C `switch` on the character code
(ASCII: `'a'` is 97, ..., `'z'` is 122), default case a single space. -/
def get_morse (character : Char) : List Char :=
  if character.toNat = 97 then ['.', '-']
  else if character.toNat = 98 then ['-', '.', '.', '.']
  else if character.toNat = 99 then ['-', '.', '-', '.']
  else if character.toNat = 100 then ['-', '.', '.']
  else if character.toNat = 101 then ['.']
  else if character.toNat = 102 then ['.', '.', '-', '.']
  else if character.toNat = 103 then ['-', '-', '.']
  else if character.toNat = 104 then ['.', '.', '.', '.']
  else if character.toNat = 105 then ['.', '.']
  else if character.toNat = 106 then ['.', '-', '-', '-']
  else if character.toNat = 107 then ['-', '.', '-']
  else if character.toNat = 108 then ['.', '-', '.', '.']
  else if character.toNat = 109 then ['-', '-']
  else if character.toNat = 110 then ['-', '.']
  else if character.toNat = 111 then ['-', '-', '-']
  else if character.toNat = 112 then ['.', '-', '-', '.']
  else if character.toNat = 113 then ['-', '-', '.', '-']
  else if character.toNat = 114 then ['.', '-', '.']
  else if character.toNat = 115 then ['.', '.', '.']
  else if character.toNat = 116 then ['-']
  else if character.toNat = 117 then ['.', '.', '-']
  else if character.toNat = 118 then ['.', '.', '.', '-']
  else if character.toNat = 119 then ['.', '-', '-']
  else if character.toNat = 120 then ['-', '.', '.', '-']
  else if character.toNat = 121 then ['-', '.', '-', '-']
  else if character.toNat = 122 then ['-', '-', '.', '.']
  else [' ']

/-- `set_leds` (lines 194-209): bit 0 of the mask drives light 0 (red),
bit 1 drives light 1 (green). -/
def set_leds (led_settings : Nat) : Bool × Bool :=
  (led_settings.land 1 ≠ 0, led_settings.land 2 ≠ 0)

/-- C conversion of an `unsigned short` value to `short int`
(wrap into `[-32768, 32767]`). -/
def toShort (n : Nat) : Int :=
  if n % 65536 < 32768 then (n % 65536 : Nat) else (n % 65536 : Nat) - 65536

/-- The engine globals (lines 52, 57-60): the playback cursor
(`message_index`, `character_index`, `symbol_index`, `phase`, each an
`unsigned short`) together with the `message_ended` flag (0/1). -/
structure EngineState where
  message_index : Nat
  character_index : Nat
  symbol_index : Nat
  phase : Nat
  message_ended : Bool
  deriving DecidableEq, Repr

/-- All engine globals are zero-initialised at startup. -/
def initial_engine_state : EngineState := ⟨0, 0, 0, 0, false⟩

/-- `signal_dot` (lines 324-334).  The parameter is passed by value, so
the `phase = 0` assignment in its else-branch writes the local copy
only (a dead store); the globals `g` flow through unchanged.  Returns
the argument of the one `set_leds` call the C body performs. -/
def signal_dot (g : EngineState) (phase : Int) : EngineState × Nat :=
  if phase ≤ 0 then (g, 1) else (g, 0)

/-- `signal_dash` (lines 338-348); same by-value parameter remark as
`signal_dot`. -/
def signal_dash (g : EngineState) (phase : Int) : EngineState × Nat :=
  if phase ≤ 2 then (g, 2) else (g, 0)

/-- `character_pause` (lines 356-361): calls `set_leds 0` only while
`phase <= 1`. -/
def character_pause (phase : Int) : Option Nat :=
  if phase ≤ 1 then some 0 else none

/-- `word_pause` (lines 364-369): calls `set_leds 0` only while
`phase <= 3`. -/
def word_pause (phase : Int) : Option Nat :=
  if phase ≤ 3 then some 0 else none

/-- `messages[message_index][character_index]` (line 223). -/
def currentChar (msgs : List (List Char)) (s : EngineState) : Char :=
  charAt (msgs.getD s.message_index []) s.character_index

/-- `get_morse(character)[symbol_index]` (line 230). -/
def currentSymbol (msgs : List (List Char)) (s : EngineState) : Char :=
  charAt (get_morse (currentChar msgs s)) s.symbol_index

/-- `signal_message` (lines 216-310), one tick of the engine: the new
values of the engine globals, and the argument of the `set_leds` call
the tick performs, if any.  The re-fetches of `symbol` after
`++symbol_index` in the C code write a local variable that is never
read again and are dropped; `++` on the `unsigned short` globals is
`+ 1` followed by the 16-bit wrap. -/
def signal_message (msgs : List (List Char)) (s : EngineState) :
    EngineState × Option Nat :=
  let character := currentChar msgs s
  if character ≠ NUL then
    -- line 227: message_ended = 0
    let s1 : EngineState := { s with message_ended := false }
    let symbol := charAt (get_morse character) s1.symbol_index
    if symbol ≠ NUL then
      if symbol = '.' then
        if s1.phase < dot_len then
          let r := signal_dot s1 (toShort s1.phase)
          ({ r.1 with phase := (r.1.phase + 1) % 65536 }, some r.2)
        else
          ({ s1 with symbol_index := (s1.symbol_index + 1) % 65536,
                     phase := 0 }, none)
      else if symbol = '-' then
        if s1.phase < dash_len then
          let r := signal_dash s1 (s1.phase : Int)
          ({ r.1 with phase := (r.1.phase + 1) % 65536 }, some r.2)
        else
          ({ s1 with symbol_index := (s1.symbol_index + 1) % 65536,
                     phase := 0 }, none)
      else
        -- case ' ' falls through to default: a word-length pause
        if s1.phase < word_pause_len then
          ({ s1 with phase := (s1.phase + 1) % 65536 },
           word_pause (s1.phase : Int))
        else
          ({ s1 with symbol_index := (s1.symbol_index + 1) % 65536,
                     phase := 0 }, none)
    else
      -- pause between characters
      if s1.phase ≤ character_pause_len then
        ({ s1 with phase := (s1.phase + 1) % 65536 },
         character_pause (s1.phase : Int))
      else
        ({ s1 with character_index := (s1.character_index + 1) % 65536,
                   symbol_index := 0, phase := 0 }, none)
  else
    -- pause between messages
    if s.phase ≤ word_pause_len then
      ({ s with phase := (s.phase + 1) % 65536 }, word_pause (s.phase : Int))
    else
      ({ s with message_ended := true, phase := 0, symbol_index := 0,
                character_index := 0 }, none)

/-- State after `n` calls of `signal_message` starting from `s`. -/
def runState (msgs : List (List Char)) (s : EngineState) : Nat → EngineState
  | 0 => s
  | n + 1 => (signal_message msgs (runState msgs s n)).1

/-- The `set_leds` arguments emitted over the first `n` calls of
`signal_message` starting from `s`, in order (silent ticks dropped). -/
def runOutputs (msgs : List (List Char)) (s : EngineState) : Nat → List Nat
  | 0 => []
  | n + 1 =>
      runOutputs msgs s n ++
        ((signal_message msgs (runState msgs s n)).2).toList

/-- `normalize_message_index` (lines 316-319); the parameter is an
`unsigned short` value. -/
def normalize_message_index (index : Nat) : Nat := index % num_messages

/-- The selection globals (lines 53-54): `next_message_index`
(`unsigned char`) and the `button_pressed` latch. -/
structure SelState where
  next_message_index : Nat
  button_pressed : Bool
  deriving DecidableEq, Repr

/-- `gpioButtonFxn0` (lines 166-174): the next-message request. -/
def gpioButtonFxn0 (s : SelState) : SelState :=
  if s.button_pressed = false then
    { next_message_index := (s.next_message_index + 1) % 256,
      button_pressed := true }
  else s

/-- `gpioButtonFxn1` (lines 183-191): the previous-message request,
implemented as adding `num_messages - 1` on the unsigned counter. -/
def gpioButtonFxn1 (s : SelState) : SelState :=
  if s.button_pressed = false then
    { next_message_index := (s.next_message_index + num_messages - 1) % 256,
      button_pressed := true }
  else s

/-- Combined engine and selection state, as read by the main loop. -/
structure SysState where
  eng : EngineState
  sel : SelState
  deriving DecidableEq, Repr

/-- The pending-switch block of `mainThread` (lines 110-114): when the
requested index differs from the current one and the message has
ended, commit the normalised requested index to both `message_index`
and `next_message_index` and clear both flags; also report the
committed index (`none` when the guard does not fire). -/
def tryApply (s : SysState) : SysState × Option Nat :=
  if s.sel.next_message_index ≠ s.eng.message_index ∧
      s.eng.message_ended = true then
    let ni := normalize_message_index s.sel.next_message_index
    (⟨{ s.eng with message_index := ni, message_ended := false },
      { next_message_index := ni, button_pressed := false }⟩, some ni)
  else (s, none)

/-- A one-message list holding the empty message, for the empty-string
boundary behaviour of the engine. -/
def empty_messages : List (List Char) := [[]]

/-- The phase bound actually maintained by `signal_message` for the
currently active symbol or pause: the symbol length for a dot or dash,
the word-pause length for a space or unknown symbol, and one more than
the pause length for the inter-character and inter-message pauses
(their guards are `<=`, so the stored phase reaches `len + 1`). -/
def activeBound (msgs : List (List Char)) (s : EngineState) : Nat :=
  if currentChar msgs s ≠ NUL then
    if currentSymbol msgs s ≠ NUL then
      if currentSymbol msgs s = '.' then dot_len
      else if currentSymbol msgs s = '-' then dash_len
      else word_pause_len
    else character_pause_len + 1
  else word_pause_len + 1

/-- The playback-cursor invariant: `character_index` stays within the
current message (its length meaning "between characters"),
`symbol_index` stays within the current character's Morse string (its
length meaning "between symbols"), and `phase` stays within
`activeBound`. -/
def CursorInv (msgs : List (List Char)) (s : EngineState) : Prop :=
  s.character_index ≤ (msgs.getD s.message_index []).length ∧
  s.symbol_index ≤ (get_morse (currentChar msgs s)).length ∧
  s.phase ≤ activeBound msgs s

instance (msgs : List (List Char)) (s : EngineState) : Decidable (CursorInv msgs s) := by
  unfold CursorInv
  exact inferInstance

/-! ## Helper lemmas -/

theorem signal_dot_fst (g : EngineState) (ph : Int) : (signal_dot g ph).1 = g := by
  unfold signal_dot
  split <;> rfl

theorem signal_dash_fst (g : EngineState) (ph : Int) : (signal_dash g ph).1 = g := by
  unfold signal_dash
  split <;> rfl

theorem morse_length_bounded :
    ∀ mi, mi < 3 → ∀ ci, ci < 4 →
      (get_morse (charAt (messages.getD mi []) ci)).length ≤ 4 := by
  decide

theorem activeBound_le (msgs : List (List Char)) (s : EngineState) :
    activeBound msgs s ≤ 5 := by
  unfold activeBound
  split_ifs <;> decide

theorem messages_getD_length (mi : Nat) : (messages.getD mi []).length ≤ 3 := by
  rcases mi with _ | _ | _ | n
  · decide
  · decide
  · decide
  · exact Nat.zero_le 3

/-! ## Claims -/

/-- C7: `get_morse` is a total pure function returning, for each of the
26 lowercase letters, that letter's standard international Morse
pattern (a string of dots and dashes), and the single-space placeholder
for every character outside `a`-`z`. -/
theorem get_morse_table_spec :
    (get_morse 'a' = ['.', '-'] ∧ get_morse 'b' = ['-', '.', '.', '.'] ∧
     get_morse 'c' = ['-', '.', '-', '.'] ∧ get_morse 'd' = ['-', '.', '.'] ∧
     get_morse 'e' = ['.'] ∧ get_morse 'f' = ['.', '.', '-', '.'] ∧
     get_morse 'g' = ['-', '-', '.'] ∧ get_morse 'h' = ['.', '.', '.', '.'] ∧
     get_morse 'i' = ['.', '.'] ∧ get_morse 'j' = ['.', '-', '-', '-'] ∧
     get_morse 'k' = ['-', '.', '-'] ∧ get_morse 'l' = ['.', '-', '.', '.'] ∧
     get_morse 'm' = ['-', '-'] ∧ get_morse 'n' = ['-', '.'] ∧
     get_morse 'o' = ['-', '-', '-'] ∧ get_morse 'p' = ['.', '-', '-', '.'] ∧
     get_morse 'q' = ['-', '-', '.', '-'] ∧ get_morse 'r' = ['.', '-', '.'] ∧
     get_morse 's' = ['.', '.', '.'] ∧ get_morse 't' = ['-'] ∧
     get_morse 'u' = ['.', '.', '-'] ∧ get_morse 'v' = ['.', '.', '.', '-'] ∧
     get_morse 'w' = ['.', '-', '-'] ∧ get_morse 'x' = ['-', '.', '.', '-'] ∧
     get_morse 'y' = ['-', '.', '-', '-'] ∧ get_morse 'z' = ['-', '-', '.', '.']) ∧
    (∀ c : Char, c.toNat < 97 → get_morse c = [' ']) ∧
    (∀ c : Char, 122 < c.toNat → get_morse c = [' ']) ∧
    (∀ c : Char, 97 ≤ c.toNat → c.toNat ≤ 122 →
      ∀ x ∈ get_morse c, x = '.' ∨ x = '-') := by
  refine ⟨by decide, ?_, ?_, ?_⟩
  · intro c h
    unfold get_morse
    rw [if_neg (show ¬c.toNat = 97 by omega)]
    rw [if_neg (show ¬c.toNat = 98 by omega)]
    rw [if_neg (show ¬c.toNat = 99 by omega)]
    rw [if_neg (show ¬c.toNat = 100 by omega)]
    rw [if_neg (show ¬c.toNat = 101 by omega)]
    rw [if_neg (show ¬c.toNat = 102 by omega)]
    rw [if_neg (show ¬c.toNat = 103 by omega)]
    rw [if_neg (show ¬c.toNat = 104 by omega)]
    rw [if_neg (show ¬c.toNat = 105 by omega)]
    rw [if_neg (show ¬c.toNat = 106 by omega)]
    rw [if_neg (show ¬c.toNat = 107 by omega)]
    rw [if_neg (show ¬c.toNat = 108 by omega)]
    rw [if_neg (show ¬c.toNat = 109 by omega)]
    rw [if_neg (show ¬c.toNat = 110 by omega)]
    rw [if_neg (show ¬c.toNat = 111 by omega)]
    rw [if_neg (show ¬c.toNat = 112 by omega)]
    rw [if_neg (show ¬c.toNat = 113 by omega)]
    rw [if_neg (show ¬c.toNat = 114 by omega)]
    rw [if_neg (show ¬c.toNat = 115 by omega)]
    rw [if_neg (show ¬c.toNat = 116 by omega)]
    rw [if_neg (show ¬c.toNat = 117 by omega)]
    rw [if_neg (show ¬c.toNat = 118 by omega)]
    rw [if_neg (show ¬c.toNat = 119 by omega)]
    rw [if_neg (show ¬c.toNat = 120 by omega)]
    rw [if_neg (show ¬c.toNat = 121 by omega)]
    rw [if_neg (show ¬c.toNat = 122 by omega)]
  · intro c h
    unfold get_morse
    rw [if_neg (show ¬c.toNat = 97 by omega)]
    rw [if_neg (show ¬c.toNat = 98 by omega)]
    rw [if_neg (show ¬c.toNat = 99 by omega)]
    rw [if_neg (show ¬c.toNat = 100 by omega)]
    rw [if_neg (show ¬c.toNat = 101 by omega)]
    rw [if_neg (show ¬c.toNat = 102 by omega)]
    rw [if_neg (show ¬c.toNat = 103 by omega)]
    rw [if_neg (show ¬c.toNat = 104 by omega)]
    rw [if_neg (show ¬c.toNat = 105 by omega)]
    rw [if_neg (show ¬c.toNat = 106 by omega)]
    rw [if_neg (show ¬c.toNat = 107 by omega)]
    rw [if_neg (show ¬c.toNat = 108 by omega)]
    rw [if_neg (show ¬c.toNat = 109 by omega)]
    rw [if_neg (show ¬c.toNat = 110 by omega)]
    rw [if_neg (show ¬c.toNat = 111 by omega)]
    rw [if_neg (show ¬c.toNat = 112 by omega)]
    rw [if_neg (show ¬c.toNat = 113 by omega)]
    rw [if_neg (show ¬c.toNat = 114 by omega)]
    rw [if_neg (show ¬c.toNat = 115 by omega)]
    rw [if_neg (show ¬c.toNat = 116 by omega)]
    rw [if_neg (show ¬c.toNat = 117 by omega)]
    rw [if_neg (show ¬c.toNat = 118 by omega)]
    rw [if_neg (show ¬c.toNat = 119 by omega)]
    rw [if_neg (show ¬c.toNat = 120 by omega)]
    rw [if_neg (show ¬c.toNat = 121 by omega)]
    rw [if_neg (show ¬c.toNat = 122 by omega)]
  · intro c h1 h2
    unfold get_morse
    by_cases e97 : c.toNat = 97
    · rw [if_pos e97]
      decide
    rw [if_neg e97]
    by_cases e98 : c.toNat = 98
    · rw [if_pos e98]
      decide
    rw [if_neg e98]
    by_cases e99 : c.toNat = 99
    · rw [if_pos e99]
      decide
    rw [if_neg e99]
    by_cases e100 : c.toNat = 100
    · rw [if_pos e100]
      decide
    rw [if_neg e100]
    by_cases e101 : c.toNat = 101
    · rw [if_pos e101]
      decide
    rw [if_neg e101]
    by_cases e102 : c.toNat = 102
    · rw [if_pos e102]
      decide
    rw [if_neg e102]
    by_cases e103 : c.toNat = 103
    · rw [if_pos e103]
      decide
    rw [if_neg e103]
    by_cases e104 : c.toNat = 104
    · rw [if_pos e104]
      decide
    rw [if_neg e104]
    by_cases e105 : c.toNat = 105
    · rw [if_pos e105]
      decide
    rw [if_neg e105]
    by_cases e106 : c.toNat = 106
    · rw [if_pos e106]
      decide
    rw [if_neg e106]
    by_cases e107 : c.toNat = 107
    · rw [if_pos e107]
      decide
    rw [if_neg e107]
    by_cases e108 : c.toNat = 108
    · rw [if_pos e108]
      decide
    rw [if_neg e108]
    by_cases e109 : c.toNat = 109
    · rw [if_pos e109]
      decide
    rw [if_neg e109]
    by_cases e110 : c.toNat = 110
    · rw [if_pos e110]
      decide
    rw [if_neg e110]
    by_cases e111 : c.toNat = 111
    · rw [if_pos e111]
      decide
    rw [if_neg e111]
    by_cases e112 : c.toNat = 112
    · rw [if_pos e112]
      decide
    rw [if_neg e112]
    by_cases e113 : c.toNat = 113
    · rw [if_pos e113]
      decide
    rw [if_neg e113]
    by_cases e114 : c.toNat = 114
    · rw [if_pos e114]
      decide
    rw [if_neg e114]
    by_cases e115 : c.toNat = 115
    · rw [if_pos e115]
      decide
    rw [if_neg e115]
    by_cases e116 : c.toNat = 116
    · rw [if_pos e116]
      decide
    rw [if_neg e116]
    by_cases e117 : c.toNat = 117
    · rw [if_pos e117]
      decide
    rw [if_neg e117]
    by_cases e118 : c.toNat = 118
    · rw [if_pos e118]
      decide
    rw [if_neg e118]
    by_cases e119 : c.toNat = 119
    · rw [if_pos e119]
      decide
    rw [if_neg e119]
    by_cases e120 : c.toNat = 120
    · rw [if_pos e120]
      decide
    rw [if_neg e120]
    by_cases e121 : c.toNat = 121
    · rw [if_pos e121]
      decide
    rw [if_neg e121]
    by_cases e122 : c.toNat = 122
    · rw [if_pos e122]
      decide
    rw [if_neg e122]
    exfalso
    omega

/-- Witness for C7 at the digit `'0'`, at `'{'` (code 123) and at the
letter `'s'`. -/
theorem get_morse_table_spec_witness :
    get_morse (Char.ofNat 48) = [' '] ∧
    get_morse (Char.ofNat 123) = [' '] ∧
    (∀ x ∈ get_morse 's', x = '.' ∨ x = '-') :=
  ⟨get_morse_table_spec.2.1 (Char.ofNat 48) (by decide),
   get_morse_table_spec.2.2.1 (Char.ofNat 123) (by decide),
   get_morse_table_spec.2.2.2 's' (by decide) (by decide)⟩

/-- C8: while the press latch is set, further button requests are
suppressed: a second `gpioButtonFxn0` (and likewise a following
`gpioButtonFxn1`, or any second press after a `gpioButtonFxn1`) leaves
the whole selection state, in particular `next_message_index`, exactly
as after the first call. -/
theorem request_latch_idempotent (s : SelState) :
    gpioButtonFxn0 (gpioButtonFxn0 s) = gpioButtonFxn0 s ∧
    gpioButtonFxn1 (gpioButtonFxn0 s) = gpioButtonFxn0 s ∧
    gpioButtonFxn0 (gpioButtonFxn1 s) = gpioButtonFxn1 s ∧
    gpioButtonFxn1 (gpioButtonFxn1 s) = gpioButtonFxn1 s := by
  obtain ⟨n, p⟩ := s
  cases p <;> simp [gpioButtonFxn0, gpioButtonFxn1]

/-- C9: `normalize_message_index` maps every unsigned value strictly
below `num_messages`; `message_index` starts at 0, `signal_message`
never changes it, and the main-loop switch keeps it below
`num_messages` (which equals the length of `messages`), so the message
fetch of every step stays in bounds. -/
theorem message_index_in_bounds :
    (∀ index : Nat, normalize_message_index index < num_messages) ∧
    initial_engine_state.message_index = 0 ∧
    num_messages = messages.length ∧
    (∀ (msgs : List (List Char)) (s : EngineState),
        (signal_message msgs s).1.message_index = s.message_index) ∧
    (∀ s : SysState, s.eng.message_index < num_messages →
        (tryApply s).1.eng.message_index < num_messages) := by
  refine ⟨?_, rfl, rfl, ?_, ?_⟩
  · intro index
    exact Nat.mod_lt _ (by decide)
  · intro msgs s
    simp only [signal_message]
    repeat' split
    all_goals simp [signal_dot_fst, signal_dash_fst]
  · intro s h
    unfold tryApply
    split
    · exact Nat.mod_lt _ (by decide)
    · exact h

/-- Witness for C9: the switch guard applied at a concrete state. -/
theorem message_index_in_bounds_witness :
    (tryApply ⟨initial_engine_state, ⟨0, false⟩⟩).1.eng.message_index <
      num_messages :=
  message_index_in_bounds.2.2.2.2 ⟨initial_engine_state, ⟨0, false⟩⟩ (by decide)

/-- C10: `signal_dot` and `signal_dash` take `phase` by value and leave
every engine global (`message_index`, `character_index`,
`symbol_index`, `phase`, `message_ended`) unchanged — the `phase = 0`
assignments inside them hit only the local copy of the parameter —
and their whole effect is the argument of their single `set_leds`
call: `1` (pattern A) for a dot at phase 0, `2` (pattern B) for a dash
at phase at most 2, `0` (off) otherwise. -/
theorem signal_helpers_frame :
    (∀ (g : EngineState) (ph : Int), (signal_dot g ph).1 = g) ∧
    (∀ (g : EngineState) (ph : Int), (signal_dash g ph).1 = g) ∧
    (∀ (g : EngineState) (ph : Int),
        (signal_dot g ph).2 = if ph ≤ 0 then 1 else 0) ∧
    (∀ (g : EngineState) (ph : Int),
        (signal_dash g ph).2 = if ph ≤ 2 then 2 else 0) := by
  refine ⟨fun g ph => signal_dot_fst g ph, fun g ph => signal_dash_fst g ph,
    ?_, ?_⟩
  · intro g ph
    by_cases hcond : ph ≤ 0 <;> simp [signal_dot, hcond]
  · intro g ph
    by_cases hcond : ph ≤ 2 <;> simp [signal_dash, hcond]

/-- C4 counterexample: with requested index 3, current index 0 and the
message ended, the normalised requested index (0) equals the current
index, yet the switch block fires anyway: it reports an index and
clears the latch, so the state does not stay unchanged. -/
theorem tryApply_counterexample :
    normalize_message_index 3 = 0 ∧
    (tryApply ⟨⟨0, 0, 0, 0, true⟩, ⟨3, true⟩⟩).2 = some 0 ∧
    (tryApply ⟨⟨0, 0, 0, 0, true⟩, ⟨3, true⟩⟩).1.sel.button_pressed = false ∧
    (tryApply ⟨⟨0, 0, 0, 0, true⟩, ⟨3, true⟩⟩).1 ≠
      ⟨⟨0, 0, 0, 0, true⟩, ⟨3, true⟩⟩ := by
  decide

/-- C4 (amended): the switch block fires exactly when the raw (not the
normalised) requested index differs from the current index and the
message has ended; when it fires it commits the normalised requested
index (which may equal the current one) to both index variables and
clears the latch and the ended flag; otherwise it returns nothing and
leaves the whole state unchanged. -/
theorem tryApply_spec (s : SysState) :
    (s.sel.next_message_index ≠ s.eng.message_index ∧
        s.eng.message_ended = true →
      tryApply s =
        (⟨{ s.eng with
              message_index :=
                normalize_message_index s.sel.next_message_index,
              message_ended := false },
           { next_message_index :=
               normalize_message_index s.sel.next_message_index,
             button_pressed := false }⟩,
         some (normalize_message_index s.sel.next_message_index))) ∧
    (¬ (s.sel.next_message_index ≠ s.eng.message_index ∧
        s.eng.message_ended = true) →
      tryApply s = (s, none)) := by
  constructor <;> intro h
  · unfold tryApply
    rw [if_pos h]
  · unfold tryApply
    rw [if_neg h]

/-- Witness for C4 at requested index 1, current index 0, ended. -/
theorem tryApply_spec_witness :
    tryApply ⟨⟨0, 0, 0, 0, true⟩, ⟨1, true⟩⟩ =
      (⟨⟨1, 0, 0, 0, false⟩, ⟨1, false⟩⟩, some 1) :=
  ((tryApply_spec ⟨⟨0, 0, 0, 0, true⟩, ⟨1, true⟩⟩).1 (by decide)).trans
    (by decide)

/-- C1 counterexample: in message "ss" at the first dot with phase 1
(which is below `dot_len`), the step emits `0` (lights off), not the
on-pattern A (`1`): the claim that pattern A is emitted at every phase
below `dot_len` fails. -/
theorem symbol_phase_counterexample :
    currentSymbol messages ⟨0, 0, 0, 1, false⟩ = '.' ∧
    1 < dot_len ∧
    (signal_message messages ⟨0, 0, 0, 1, false⟩).2 = some 0 ∧
    (some 0 : Option Nat) ≠ some 1 := by
  decide

/-- C1 (amended): while a dot is active and `phase < dot_len`, the step
emits pattern A (`1`) at phase 0 and off (`0`) at phase 1; while a
dash is active and `phase < dash_len`, it emits pattern B (`2`) for
phases up to 2 and off at phase 3.  Once phase has reached the
symbol's length the step advances `symbol_index` and resets phase to 0
without emitting anything. -/
theorem symbol_phase_emission (msgs : List (List Char)) (s : EngineState)
    (hc : currentChar msgs s ≠ NUL) :
    (currentSymbol msgs s = '.' → s.phase < dot_len →
        (signal_message msgs s).2 = some (if s.phase = 0 then 1 else 0)) ∧
    (currentSymbol msgs s = '.' → dot_len ≤ s.phase →
        (signal_message msgs s).1.symbol_index = (s.symbol_index + 1) % 65536 ∧
        (signal_message msgs s).1.phase = 0 ∧
        (signal_message msgs s).2 = none) ∧
    (currentSymbol msgs s = '-' → s.phase < dash_len →
        (signal_message msgs s).2 = some (if s.phase ≤ 2 then 2 else 0)) ∧
    (currentSymbol msgs s = '-' → dash_len ≤ s.phase →
        (signal_message msgs s).1.symbol_index = (s.symbol_index + 1) % 65536 ∧
        (signal_message msgs s).1.phase = 0 ∧
        (signal_message msgs s).2 = none) := by
  obtain ⟨mi, ci, si, ph, e⟩ := s
  simp only [currentSymbol] at *
  refine ⟨?_, ?_, ?_, ?_⟩ <;> intro hs hp <;>
    simp only [signal_message] <;> rw [if_pos hc] <;> (try dsimp only) <;>
    rw [hs]
  · rw [if_pos (by decide : ('.' : Char) ≠ NUL), if_pos rfl,
      if_pos (show ph < dot_len from hp)]
    have hpb : ph < 2 := hp
    interval_cases ph <;> rfl
  · rw [if_pos (by decide : ('.' : Char) ≠ NUL), if_pos rfl,
      if_neg (show ¬ ph < dot_len by omega)]
    exact ⟨rfl, rfl, rfl⟩
  · rw [if_pos (by decide : ('-' : Char) ≠ NUL),
      if_neg (by decide : ¬ ('-' : Char) = '.'), if_pos rfl,
      if_pos (show ph < dash_len from hp)]
    have hpb : ph < 4 := hp
    interval_cases ph <;> rfl
  · rw [if_pos (by decide : ('-' : Char) ≠ NUL),
      if_neg (by decide : ¬ ('-' : Char) = '.'), if_pos rfl,
      if_neg (show ¬ ph < dash_len by omega)]
    exact ⟨rfl, rfl, rfl⟩

/-- Witness for C1 at the initial state (message "ss", dot, phase 0). -/
theorem symbol_phase_emission_witness :
    (signal_message messages initial_engine_state).2 = some 1 := by
  have h :=
    (symbol_phase_emission messages initial_engine_state (by decide)).1
      (by decide) (by decide)
  simpa [initial_engine_state] using h

/-- C2 counterexample: the first two `set_leds` calls of the "ss"
playback are `[A, off]`, not the `[A, A]` the claimed sequence starts
with. -/
theorem scenario1_counterexample :
    runOutputs messages initial_engine_state 2 = [1, 0] ∧
    [(1 : Nat), 0] ≠ [1, 1] := by
  decide

/-- C2 (amended): the full playback of "ss" (message index 0) takes 32
steps and emits exactly
`[A,off,A,off,A,off, off,off, A,off,A,off,A,off, off,off, off,off,off,off]`
(three dots each as on-then-off, a two-off inter-character pause after
each 's', then four offs of inter-message pause); `message_ended`
is false at every step before step 32 and becomes true at step 32 —
two silent steps after the final off emission — with the cursor reset
to the start of the message. -/
theorem scenario1_trace :
    runOutputs messages initial_engine_state 32 =
      [1, 0, 1, 0, 1, 0, 0, 0, 1, 0, 1, 0, 1, 0, 0, 0, 0, 0, 0, 0] ∧
    runState messages initial_engine_state 32 = ⟨0, 0, 0, 0, true⟩ ∧
    (∀ k, k < 32 →
      (runState messages initial_engine_state k).message_ended = false) := by
  decide

/-- Witness for C2 at step 0. -/
theorem scenario1_trace_witness :
    (runState messages initial_engine_state 0).message_ended = false :=
  scenario1_trace.2.2 0 (by decide)

/-- C3 counterexample: `message_ended` is set at step 32, but the very
next `signal_message` call (step 33, reading the non-NUL first
character of "ss") resets it to false — no scheduler clear involved. -/
theorem ended_cleared_by_next_step :
    (runState messages initial_engine_state 32).message_ended = true ∧
    (runState messages initial_engine_state 33).message_ended = false := by
  decide

/-- C3 (amended): with the preset list and start index 0, the ended
flag is set exactly once per 32-step traversal of message 0 (it is
true exactly at steps 32 and 64 of the first two traversals); it does
not stay true until a scheduler clear: every `signal_message` call
whose current character is non-NUL resets it to false. -/
theorem ended_flag_traversals :
    (∀ k, k < 65 →
      ((runState messages initial_engine_state k).message_ended = true ↔
        (k = 32 ∨ k = 64))) ∧
    (∀ (msgs : List (List Char)) (s : EngineState),
        currentChar msgs s ≠ NUL →
        (signal_message msgs s).1.message_ended = false) := by
  constructor
  · decide
  · intro msgs s h
    simp only [signal_message]
    rw [if_pos h]
    repeat' split
    all_goals simp [signal_dot_fst, signal_dash_fst]

/-- Witness for C3 at step 32. -/
theorem ended_flag_traversals_witness :
    (runState messages initial_engine_state 32).message_ended = true :=
  (ended_flag_traversals.1 32 (by decide)).mpr (Or.inl rfl)

/-- C5 counterexample: on the empty message the very first step does
not set `message_ended`; it emits off and enters the inter-message
pause. -/
theorem empty_message_counterexample :
    (runState empty_messages initial_engine_state 1).message_ended = false ∧
    (signal_message empty_messages initial_engine_state).2 = some 0 := by
  decide

/-- C5 (amended): on the empty message the engine enters the
inter-message pause immediately, but `message_ended` only becomes true
on step `word_pause_len + 2 = 6`, not on the first step; no step of
the (repeating) traversal emits any light pattern other than off. -/
theorem empty_message_playback :
    (∀ k, k < 6 →
      (runState empty_messages initial_engine_state k).message_ended = false) ∧
    (runState empty_messages initial_engine_state 6).message_ended = true ∧
    (∀ k, k < 12 →
      (signal_message empty_messages
          (runState empty_messages initial_engine_state k)).2 = none ∨
      (signal_message empty_messages
          (runState empty_messages initial_engine_state k)).2 = some 0) := by
  refine ⟨by decide, by decide, by decide⟩

/-- Witness for C5: the flag at step 6 and the first emission. -/
theorem empty_message_playback_witness :
    (runState empty_messages initial_engine_state 6).message_ended = true ∧
    ((signal_message empty_messages
        (runState empty_messages initial_engine_state 0)).2 = none ∨
     (signal_message empty_messages
        (runState empty_messages initial_engine_state 0)).2 = some 0) :=
  ⟨empty_message_playback.2.1, empty_message_playback.2.2 0 (by decide)⟩

/-- C6 counterexample: after 12 steps of the "ss" playback the engine
sits in the inter-character pause (current symbol exhausted) with
phase 3, which exceeds `character_pause_len = 2`: the claimed bound
"phase never exceeds the length of the active pause" fails. -/
theorem phase_bound_counterexample :
    currentChar messages (runState messages initial_engine_state 12) ≠ NUL ∧
    currentSymbol messages (runState messages initial_engine_state 12) = NUL ∧
    (runState messages initial_engine_state 12).phase = 3 ∧
    ¬ (runState messages initial_engine_state 12).phase ≤
        character_pause_len := by
  decide

theorem cursor_inv_step_bounded_false :
    ∀ mi, mi < 3 → ∀ ci, ci < 4 → ∀ si, si < 5 → ∀ ph, ph < 6 →
      ¬ CursorInv messages ⟨mi, ci, si, ph, false⟩ ∨
        CursorInv messages
          (signal_message messages ⟨mi, ci, si, ph, false⟩).1 := by
  decide

theorem cursor_inv_step_bounded_true :
    ∀ mi, mi < 3 → ∀ ci, ci < 4 → ∀ si, si < 5 → ∀ ph, ph < 6 →
      ¬ CursorInv messages ⟨mi, ci, si, ph, true⟩ ∨
        CursorInv messages
          (signal_message messages ⟨mi, ci, si, ph, true⟩).1 := by
  decide

/-- C6 (amended): every `signal_message` step preserves the cursor
invariant `CursorInv`: `character_index` stays at most the current
message's length, `symbol_index` stays at most the length of the
current character's Morse string, and `phase` stays at most the active
bound — the symbol length while a dot or dash is active, but
`pause length + 1` (not the pause length itself) during the
inter-character and inter-message pauses. -/
theorem cursor_invariant_preserved (s : EngineState)
    (h : CursorInv messages s) :
    CursorInv messages (signal_message messages s).1 := by
  obtain ⟨mi, ci, si, ph, e⟩ := s
  by_cases hmi : mi < 3
  · have h' : ci ≤ (messages.getD mi []).length ∧
        si ≤ (get_morse (charAt (messages.getD mi []) ci)).length ∧
        ph ≤ activeBound messages ⟨mi, ci, si, ph, e⟩ := h
    obtain ⟨h1, h2, h3⟩ := h'
    have hci : ci < 4 := by
      have := messages_getD_length mi
      omega
    have hsi : si < 5 := by
      have := morse_length_bounded mi hmi ci hci
      omega
    have hph : ph < 6 := by
      have := activeBound_le messages ⟨mi, ci, si, ph, e⟩
      omega
    cases e
    · exact (cursor_inv_step_bounded_false mi hmi ci hci si hsi ph hph).resolve_left
        (not_not_intro h)
    · exact (cursor_inv_step_bounded_true mi hmi ci hci si hsi ph hph).resolve_left
        (not_not_intro h)
  · obtain ⟨n, rfl⟩ : ∃ n, mi = n + 3 := ⟨mi - 3, by omega⟩
    have hchar : currentChar messages ⟨n + 3, ci, si, ph, e⟩ = NUL := rfl
    have h' : ci ≤ 0 ∧ si ≤ 1 ∧ ph ≤ 5 := h
    obtain ⟨hci, hsi, hph⟩ := h'
    simp only [signal_message]
    rw [if_neg (fun hcontra => hcontra hchar)]
    split
    · rename_i hle
      have hle4 : ph ≤ 4 := hle
      have hmod : (ph + 1) % 65536 = ph + 1 := Nat.mod_eq_of_lt (by omega)
      refine ⟨hci, hsi, ?_⟩
      show (ph + 1) % 65536 ≤ 5
      omega
    · exact ⟨Nat.zero_le _, Nat.zero_le _, Nat.zero_le _⟩

/-- Witness for C6 at the initial state. -/
theorem cursor_invariant_preserved_witness :
    CursorInv messages (signal_message messages initial_engine_state).1 :=
  cursor_invariant_preserved initial_engine_state (by decide)
